import Mathlib

/-!
# Verification of the amber lost-and-found backend

Shallow embedding of `src/amb_be` (a Flask + SQLAlchemy application).

Conventions of the embedding:
* the SQL database session is a `DB` value threaded explicitly; a committed
  mutation is modelled by returning the new `DB`;
* HTTP responses are the `Resp` inductive: each constructor records the
  status code and the JSON payload the handler serializes;
* Python `request.form.get(key)` / JSON `data.get(key)` yield
  `Option String` (`none` = key absent); Python truthiness of an optional
  string (`if not data.get(k)`) is `isBlank`;
* timestamps (`datetime.utcnow`) are `Nat` values supplied by the caller
  as a `now` parameter;
* the four modules `found.py`, `lost.py`, `looking.py`, `stolen.py` are
  line-for-line identical except for the model class they query, the word
  in their response messages, and `stolen.py` additionally reading and
  writing `vehicle_details`.  They are embedded once, parameterized by
  `PostType`, branching on `PostType.stolen` exactly where `stolen.py`
  differs from the other three files.
-/

namespace Amber

/-- The four polymorphic identities of `models.py` (`post_type` column). -/
inductive PostType where
  | found
  | lost
  | looking
  | stolen
deriving DecidableEq, Repr

/-- The capitalized word each module uses in its response messages
("Found post created successfully", ...). -/
def PostType.label : PostType → String
  | .found => "Found"
  | .lost => "Lost"
  | .looking => "Looking"
  | .stolen => "Stolen"

/-- `users` table row (`models.py`, class `User`). -/
structure User where
  id : Nat
  username : String
  email : String
  password_hash : String
  is_admin : Bool
  created_at : Nat
deriving DecidableEq, Repr

/-- `posts` table row (`models.py`, class `Post` and its single-table
polymorphic subclasses).  `vehicle_details` is the extra nullable column
of `StolenPost`; on rows of the other three identities it is `none`. -/
structure Post where
  id : Nat
  description : String
  location : String
  contact_info : String
  date_posted : Nat
  post_type : PostType
  user_id : Nat
  image : Option String
  vehicle_details : Option String
deriving DecidableEq, Repr

/-- `comments` table row (`models.py`, class `Comment`). -/
structure Comment where
  id : Nat
  content : String
  date_posted : Nat
  user_id : Nat
  post_id : Nat
deriving DecidableEq, Repr

/-- The relational state the handlers read and write.  (The `reviews`
table exists in `models.py` but no embedded handler touches it.) -/
structure DB where
  users : List User
  posts : List Post
  comments : List Comment
deriving DecidableEq, Repr

/-- `User.query.get(uid)`: primary-key lookup. -/
def userGet (db : DB) (uid : Nat) : Option User :=
  db.users.find? (fun u => u.id == uid)

/-- `Post.query.get(pid)` on the polymorphic base class: primary-key
lookup over all variants. -/
def postGetAny (db : DB) (pid : Nat) : Option Post :=
  db.posts.find? (fun p => p.id == pid)

/-- `FoundPost.query.get(pid)` (and the three siblings): SQLAlchemy's
`Query.get` on a polymorphic subclass returns the row only when its
discriminator equals the subclass's `polymorphic_identity`, else `None`. -/
def variantGet (pt : PostType) (db : DB) (pid : Nat) : Option Post :=
  match postGetAny db pid with
  | some p => if p.post_type == pt then some p else none
  | none => none

/-- Autoincrement primary key for a fresh row. -/
def nextId (ids : List Nat) : Nat := ids.foldr max 0 + 1

def nextPostId (db : DB) : Nat := nextId (db.posts.map (fun p => p.id))

def nextCommentId (db : DB) : Nat := nextId (db.comments.map (fun c => c.id))

def nextUserId (db : DB) : Nat := nextId (db.users.map (fun u => u.id))

/-- `db.session.commit()` after mutating an attached post object. -/
def replacePost (db : DB) (p : Post) : DB :=
  { db with posts := db.posts.map (fun q => if q.id == p.id then p else q) }

/-- `db.session.commit()` after mutating an attached user object. -/
def replaceUser (db : DB) (u : User) : DB :=
  { db with users := db.users.map (fun v => if v.id == u.id then u else v) }

/-- Python truthiness test `not data.get(key)` for an optional string:
true when the key is absent or its value is the empty string. -/
def isBlank : Option String → Bool
  | none => true
  | some s => s == ""

/-- The serialized shape each post handler returns
(`found.py` lines 80-88 and the identical blocks elsewhere);
`stolen.py` additionally serializes `vehicle_details`, modelled as a
field that the other three variants leave at `none`. -/
structure PostView where
  id : Nat
  description : String
  location : String
  contact_info : String
  vehicle_details : Option String
  image : Option String
  date_posted : Nat
  username : String
deriving DecidableEq, Repr

/-- Serialized comment shape (`found.py` lines 242-249 and siblings). -/
structure CommentView where
  id : Nat
  content : String
  date_posted : Nat
  username : String
deriving DecidableEq, Repr

/-- Serialized user shape returned by the admin account routes
(`admins.py` lines 100-108 and 197-203). -/
structure UserView where
  id : Nat
  username : String
  email : String
  is_admin : Bool
  created_at : Nat
deriving DecidableEq, Repr

/-- One `(date, total)` bucket of the per-day aggregations in
`admins.py` `admin_analytics`. -/
structure DayCount where
  date : Nat
  total : Nat
deriving DecidableEq, Repr

/-- One row of the `user_activity` aggregation in `admin_analytics`. -/
structure ActivityRow where
  username : String
  post_date : Option Nat
  comment_date : Option Nat
  total_posts : Nat
  total_comments : Nat
deriving DecidableEq, Repr

/-- The full `analytics` payload (`admins.py` lines 64-81). -/
structure AnalyticsData where
  total_users : Nat
  total_posts : Nat
  total_comments : Nat
  users_per_day : List DayCount
  posts_per_day : List DayCount
  comments_per_day : List DayCount
  user_activity : List ActivityRow
deriving DecidableEq, Repr

/-- `{'id': post.id, 'description': ..., 'date_posted': ...}` rows of
`admins.py` `get_user_activity`. -/
structure ActivityPostView where
  id : Nat
  description : String
  date_posted : Nat
deriving DecidableEq, Repr

structure ActivityCommentView where
  id : Nat
  content : String
  date_posted : Nat
deriving DecidableEq, Repr

/-- An HTTP response: the status code and the serialized JSON payload.
`caughtError s` is a handler's own `except Exception` branch
(`jsonify({'message': f'An error occurred: ...'}), 500`); `unhandled s`
is an exception that escapes a handler that has no `try`, which Flask
turns into a generic 500 Internal Server Error page. -/
inductive Resp where
  | msg (status : Nat) (message : String)
  | errors (status : Nat) (errs : List String)
  | createdPost (status : Nat) (message : String) (image : Option String)
  | postList (status : Nat) (items : List PostView)
  | onePost (status : Nat) (item : PostView)
  | commentList (status : Nat) (items : List CommentView)
  | userList (status : Nat) (items : List UserView)
  | oneUser (status : Nat) (item : UserView)
  | analytics (status : Nat) (data : AnalyticsData)
  | activity (status : Nat) (posts : List ActivityPostView)
      (comments : List ActivityCommentView)
  | caughtError (detail : String)
  | unhandled (exn : String)
deriving DecidableEq, Repr

/-! ## Post repository (found.py / lost.py / looking.py / stolen.py) -/

/-- The form fields a post create/update request may carry
(`request.form`, read with `data.get(...)`). -/
structure PostForm where
  description : Option String
  location : Option String
  contact_info : Option String
  vehicle_details : Option String
deriving DecidableEq, Repr

/-- `validate_post_data` (identical in all four modules, e.g. `found.py`
lines 24-32): collects one message per blank required field, in source
order. -/
def validate_post_data (data : PostForm) : List String :=
  (if isBlank data.description then ["Description is required."] else []) ++
  (if isBlank data.location then ["Location is required."] else []) ++
  (if isBlank data.contact_info then ["Contact information is required."] else [])

/-- `post.user.username` access during serialization: `none` when the
owner row is missing (in Python the attribute access raises, caught by
the handler's `except`). -/
def postView (pt : PostType) (db : DB) (p : Post) : Option PostView :=
  match userGet db p.user_id with
  | none => none
  | some u =>
    some { id := p.id, description := p.description, location := p.location
           contact_info := p.contact_info
           vehicle_details := if pt == PostType.stolen then p.vehicle_details else none
           image := p.image, date_posted := p.date_posted, username := u.username }

/-- The list comprehension `[{...} for post in posts]`. -/
def viewPosts (pt : PostType) (db : DB) : List Post → Option (List PostView)
  | [] => some []
  | p :: ps =>
    match postView pt db p, viewPosts pt db ps with
    | some v, some vs => some (v :: vs)
    | _, _ => none

/-- `jsonify(posts_data), 200`, or the handler's `except` branch when an
owner row fails to resolve during serialization. -/
def serveList (pt : PostType) (db : DB) (ps : List Post) : Resp :=
  match viewPosts pt db ps with
  | some vs => Resp.postList 200 vs
  | none => Resp.caughtError "AttributeError: post.user is None"

/-- `create_found_post` / `create_lost_post` / `create_looking_post` /
`create_stolen_post` (e.g. `found.py` lines 37-72).  `image` is the
filename `save_image` would store (the upload and `secure_filename`
sanitization are the file-system collaborators, out of scope). -/
def create_post (pt : PostType) (db : DB) (jwt_user_id : Nat)
    (data : PostForm) (image : Option String) (now : Nat) : Resp × DB :=
  let errors := validate_post_data data
  if errors ≠ [] then (Resp.errors 400 errors, db)
  else
    let image_filename : Option String := image
    match userGet db jwt_user_id with
    | none => (Resp.msg 404 "User not found", db)
    | some user =>
      let new_post : Post :=
        { id := nextPostId db
          description := data.description.getD ""
          location := data.location.getD ""
          contact_info := data.contact_info.getD ""
          date_posted := now
          post_type := pt
          user_id := user.id
          image := image_filename
          vehicle_details := if pt == PostType.stolen then data.vehicle_details else none }
      (Resp.createdPost 201 (pt.label ++ " post created successfully") image_filename,
       { db with posts := db.posts ++ [new_post] })

/-- `get_all_found_posts` and siblings (e.g. `found.py` lines 76-93). -/
def get_all_posts (pt : PostType) (db : DB) : Resp :=
  serveList pt db (db.posts.filter (fun p => p.post_type == pt))

/-- `get_found_post` and siblings (e.g. `found.py` lines 97-115). -/
def get_post (pt : PostType) (db : DB) (post_id : Nat) : Resp :=
  match variantGet pt db post_id with
  | none => Resp.msg 404 "Post not found"
  | some p =>
    match postView pt db p with
    | some v => Resp.onePost 200 v
    | none => Resp.caughtError "AttributeError: post.user is None"

/-! SQL `LIKE` / `ilike` pattern matching, the contract of the database
collaborator behind `FoundPost.description.ilike(f'%{keyword}%')`:
`%` matches any run of characters, `_` any single character, every other
pattern character matches itself; `ilike` compares case-insensitively. -/

/-- All suffixes of a list, longest first. -/
def suffixes : List Char → List (List Char)
  | [] => [[]]
  | c :: cs => (c :: cs) :: suffixes cs

/-- SQL LIKE matching of a whole string against a whole pattern. -/
def likeMatch : List Char → List Char → Bool
  | [], m => m.isEmpty
  | p :: ps, m =>
    if p = '%' then (suffixes m).any (fun m2 => likeMatch ps m2)
    else
      match m with
      | [] => false
      | c :: m2 => (if p = '_' then true else p == c) && likeMatch ps m2

def lowerList (s : String) : List Char := s.data.map Char.toLower

/-- Python `str.lower()`: lowercase every character. -/
def pyLower (s : String) : String := String.mk (s.data.map Char.toLower)

/-- `column.ilike(pattern)`: case-insensitive LIKE. -/
def ilike (s pattern : String) : Bool :=
  likeMatch (lowerList pattern) (lowerList s)

/-- `search_found_posts` and siblings (e.g. `found.py` lines 119-146):
lowercase the two query parameters, apply each as an `ilike '%..%'`
filter only when non-empty (`if keyword:`), serialize like `getAll`. -/
def search_posts (pt : PostType) (db : DB) (kwArg locArg : Option String) : Resp :=
  let keyword := pyLower (kwArg.getD "")
  let location := pyLower (locArg.getD "")
  let q0 := db.posts.filter (fun p => p.post_type == pt)
  let q1 := if keyword == "" then q0
            else q0.filter (fun p => ilike p.description ("%" ++ keyword ++ "%"))
  let q2 := if location == "" then q1
            else q1.filter (fun p => ilike p.location ("%" ++ location ++ "%"))
  serveList pt db q2

/-- `update_found_post` / `update_stolen_post` and siblings (e.g.
`found.py` lines 151-183, `stolen.py` lines 156-189): 404 on missing id,
403 when the JWT identity is not the owner, then `validate_post_data`
on the submitted form, then field-by-field assignment with
`data.get(key, current_value)` fallbacks and commit. -/
def update_post (pt : PostType) (db : DB) (post_id jwt_user_id : Nat)
    (data : PostForm) (image : Option String) : Resp × DB :=
  match variantGet pt db post_id with
  | none => (Resp.msg 404 "Post not found", db)
  | some post =>
    if post.user_id != jwt_user_id then
      (Resp.msg 403 "Unauthorized to update this post", db)
    else
      let errors := validate_post_data data
      if errors ≠ [] then (Resp.errors 400 errors, db)
      else
        let post2 : Post :=
          { post with
            description := data.description.getD post.description
            location := data.location.getD post.location
            contact_info := data.contact_info.getD post.contact_info
            vehicle_details :=
              if pt == PostType.stolen then
                match data.vehicle_details with
                | some v => some v
                | none => post.vehicle_details
              else post.vehicle_details
            image :=
              match image with
              | some f => some f
              | none => post.image }
        (Resp.msg 200 (pt.label ++ " post updated successfully"), replacePost db post2)

/-- `delete_found_post` and siblings (e.g. `found.py` lines 188-204). -/
def delete_post (pt : PostType) (db : DB) (post_id jwt_user_id : Nat) : Resp × DB :=
  match variantGet pt db post_id with
  | none => (Resp.msg 404 "Post not found", db)
  | some post =>
    if post.user_id != jwt_user_id then
      (Resp.msg 403 "Unauthorized to delete this post", db)
    else
      (Resp.msg 200 (pt.label ++ " post deleted successfully"),
       { db with posts := db.posts.filter (fun q => q.id != post.id) })

/-- `add_comment` (e.g. `found.py` lines 209-230): content check, then
user and variant-scoped post lookups, then insert and commit.  A `None`
user (deleted account behind a live token) makes `user.id` raise, caught
by the handler's `except`. -/
def add_comment (pt : PostType) (db : DB) (post_id jwt_user_id : Nat)
    (content : Option String) (now : Nat) : Resp × DB :=
  if isBlank content then (Resp.msg 400 "Comment content is required", db)
  else
    match variantGet pt db post_id with
    | none => (Resp.msg 404 "Post not found", db)
    | some post =>
      match userGet db jwt_user_id with
      | none => (Resp.caughtError "AttributeError: user is None", db)
      | some user =>
        let c : Comment :=
          { id := nextCommentId db, content := content.getD ""
            date_posted := now, user_id := user.id, post_id := post.id }
        (Resp.msg 201 "Comment added successfully",
         { db with comments := db.comments ++ [c] })

/-- `comment.user.username` during comment serialization. -/
def commentView (db : DB) (c : Comment) : Option CommentView :=
  match userGet db c.user_id with
  | none => none
  | some u => some { id := c.id, content := c.content
                     date_posted := c.date_posted, username := u.username }

def viewComments (db : DB) : List Comment → Option (List CommentView)
  | [] => some []
  | c :: cs =>
    match commentView db c, viewComments db cs with
    | some v, some vs => some (v :: vs)
    | _, _ => none

/-- `get_comments` (e.g. `found.py` lines 234-254): 404 unless the
variant-scoped post exists, then all comments with that `post_id`. -/
def get_comments (pt : PostType) (db : DB) (post_id : Nat) : Resp :=
  match variantGet pt db post_id with
  | none => Resp.msg 404 "Post not found"
  | some _ =>
    match viewComments db (db.comments.filter (fun c => c.post_id == post_id)) with
    | some vs => Resp.commentList 200 vs
    | none => Resp.caughtError "AttributeError: comment.user is None"

/-! ## Token service and user routes (models.py, users/users.py) -/

/-- Model of werkzeug's `generate_password_hash` (external primitive,
out of scope per the spec): an irreversible salted hash, abstracted as a
deterministic tagged transform — no claim depends on its internals. -/
def generate_password_hash (password : String) : String :=
  "pbkdf2-sha256$" ++ password

/-- What `jwt.decode(token, SECRET_KEY, algorithms=['HS256'])` followed
by `['reset_password']` can do with a presented reset token, per the
standard contract of the PyJWT collaborator: it succeeds only on a
well-signed, unexpired token carrying the `reset_password` claim
(`valid`); every other outcome raises — `malformed` (not decodable),
`badSignature` (signature mismatch under `SECRET_KEY`), `expired`
(`exp` claim in the past), `missingClaim` (decodes but has no
`reset_password` key, a `KeyError` at the subscript). -/
inductive ResetToken where
  | malformed
  | badSignature
  | expired (user_id : Nat)
  | missingClaim
  | valid (user_id : Nat)
deriving DecidableEq, Repr

/-- The `user_id` extraction inside the `try` of
`User.verify_reset_token`: `some` exactly when nothing raises. -/
def jwtDecodeReset : ResetToken → Option Nat
  | ResetToken.valid uid => some uid
  | _ => none

/-- `User.verify_reset_token` (`models.py` lines 44-50): any exception
in decode or claim extraction yields `None`; otherwise the user row (or
`None` if the id no longer resolves). -/
def verify_reset_token (db : DB) (token : ResetToken) : Option User :=
  match jwtDecodeReset token with
  | none => none
  | some user_id => userGet db user_id

/-- `reset_password` (`users.py` lines 112-124).  `body` models
`request.get_json()`: `none` = no JSON body, `some pw` = a body whose
`password` field is `pw` (`none` when the key is absent). -/
def reset_password (db : DB) (token : ResetToken)
    (body : Option (Option String)) : Resp × DB :=
  match verify_reset_token db token with
  | none => (Resp.msg 400 "Invalid or expired token", db)
  | some user =>
    match body with
    | none => (Resp.msg 400 "Password is required", db)
    | some pw =>
      if isBlank pw then (Resp.msg 400 "Password is required", db)
      else
        (Resp.msg 200 "Password has been updated",
         replaceUser db { user with password_hash := generate_password_hash (pw.getD "") })

/-- `request_password_reset` (`users.py` lines 102-108).  `body` is the
`email` field of the JSON body (`data['email']` raises, unhandled, when
it is missing).  The third component lists the recipients of the reset
mails the Notification Gateway is asked to send (`send_reset_email`) —
the handler's only side effect besides the response. -/
def request_password_reset (db : DB) (body : Option String) :
    Resp × DB × List String :=
  match body with
  | none => (Resp.unhandled "KeyError or TypeError: no email in request body", db, [])
  | some email =>
    match db.users.find? (fun u => u.email == email) with
    | some user =>
      (Resp.msg 200 "If your email exists, you will receive a password reset email shortly.",
       db, [user.email])
    | none =>
      (Resp.msg 200 "If your email exists, you will receive a password reset email shortly.",
       db, [])

/-! ## Admin routes (users/admins.py) -/

/-- The names bound at module scope in `app/users/admins.py` by
its import statements (lines 1-6).  Notably `generate_password_hash` is
not imported there (unlike in `users.py`), so evaluating that name in
`create_user` raises `NameError`. -/
def admins_module_names : List String :=
  ["Blueprint", "jsonify", "request", "jwt_required", "get_jwt_identity",
   "User", "Post", "Comment", "Review", "db", "func", "Limiter",
   "get_remote_address", "admins_bp", "limiter", "is_admin"]

/-- `is_admin` helper (`admins.py` lines 15-17): fail-closed — `False`
when the caller's row is absent. -/
def is_admin (db : DB) (user_id : Nat) : Bool :=
  match userGet db user_id with
  | some user => user.is_admin
  | none => false

/-- `func.date(...)`: the calendar day of a timestamp. -/
def day (t : Nat) : Nat := t / 86400

/-- Distinct elements in order of first occurrence (the grouping keys of
a SQL `GROUP BY`; the result order a backend reports is not part of the
contract, first occurrence is this model's choice). -/
def firstOccur {α : Type} [BEq α] (xs : List α) : List α :=
  xs.foldl (fun acc x => if acc.contains x then acc else acc ++ [x]) []

/-- One `(date, count)` series of `admin_analytics`
(`GROUP BY func.date(col)` with `count(id)`). -/
def perDay (stamps : List Nat) : List DayCount :=
  (firstOccur (stamps.map day)).map
    (fun d => { date := d, total := (stamps.filter (fun t => day t == d)).length })

/-- The row set of `User outerjoin Post outerjoin Comment` restricted to
one user: a cross product of the user's posts and comments, padded with
`none` on an empty side (LEFT OUTER JOIN semantics). -/
def outerPairs (db : DB) (u : User) : List (Option Post × Option Comment) :=
  let ps := db.posts.filter (fun p => p.user_id == u.id)
  let cs := db.comments.filter (fun c => c.user_id == u.id)
  if ps.isEmpty && cs.isEmpty then [(none, none)]
  else if cs.isEmpty then ps.map (fun p => (some p, none))
  else if ps.isEmpty then cs.map (fun c => (none, some c))
  else ps.flatMap (fun p => cs.map (fun c => (some p, some c)))

/-- The `user_activity` aggregation of `admin_analytics` (`admins.py`
lines 54-61): group the join rows by
`(username, date(post.date_posted), date(comment.date_posted))` and
count the non-null post and comment entries of each group. -/
def user_activity_rows (db : DB) : List ActivityRow :=
  db.users.flatMap (fun u =>
    let pairs := outerPairs db u
    let keyOf : Option Post × Option Comment → Option Nat × Option Nat :=
      fun pc => (pc.1.map (fun p => day p.date_posted),
                 pc.2.map (fun c => day c.date_posted))
    (firstOccur (pairs.map keyOf)).map (fun k =>
      let grp := pairs.filter (fun pc => keyOf pc == k)
      { username := u.username, post_date := k.1, comment_date := k.2
        total_posts := (grp.filter (fun pc => pc.1.isSome)).length
        total_comments := (grp.filter (fun pc => pc.2.isSome)).length }))

/-- `admin_analytics` (`admins.py` lines 22-86). -/
def admin_analytics (db : DB) (caller : Nat) : Resp :=
  if !(is_admin db caller) then Resp.msg 403 "Admin access required"
  else
    Resp.analytics 200
      { total_users := db.users.length
        total_posts := db.posts.length
        total_comments := db.comments.length
        users_per_day := perDay (db.users.map (fun u => u.created_at))
        posts_per_day := perDay (db.posts.map (fun p => p.date_posted))
        comments_per_day := perDay (db.comments.map (fun c => c.date_posted))
        user_activity := user_activity_rows db }

def userView (u : User) : UserView :=
  { id := u.id, username := u.username, email := u.email
    is_admin := u.is_admin, created_at := u.created_at }

/-- `get_all_users` (`admins.py` lines 91-114). -/
def get_all_users (db : DB) (caller : Nat) : Resp :=
  if !(is_admin db caller) then Resp.msg 403 "Admin access required"
  else Resp.userList 200 (db.users.map userView)

/-- The JSON body `create_user` reads. -/
structure CreateUserBody where
  email : Option String
  password : Option String
  username : Option String
  is_admin : Option Bool
deriving DecidableEq, Repr

/-- `create_user` (`admins.py` lines 120-139): admin gate, required
fields, duplicate-email check, then line 134 evaluates
`generate_password_hash` — a name `admins.py` never imports.  The branch
on `admins_module_names` makes Python's name resolution at that line
explicit: the import list does not contain the name, so the call raises
`NameError`, and with no `try` in this handler Flask answers 500; the
user row is never inserted.  The other branch records what the source
would do if the import existed. -/
def create_user (db : DB) (caller : Nat) (body : Option CreateUserBody)
    (now : Nat) : Resp × DB :=
  if !(is_admin db caller) then (Resp.msg 403 "Admin access required", db)
  else
    match body with
    | none => (Resp.msg 400 "Email and password are required", db)
    | some data =>
      if isBlank data.email || isBlank data.password then
        (Resp.msg 400 "Email and password are required", db)
      else if (db.users.find? (fun u => u.email == data.email.getD "")).isSome then
        (Resp.msg 400 "Email already registered", db)
      else if admins_module_names.contains "generate_password_hash" then
        let new_user : User :=
          { id := nextUserId db, username := data.username.getD ""
            email := data.email.getD ""
            password_hash := generate_password_hash (data.password.getD "")
            is_admin := data.is_admin.getD false, created_at := now }
        (Resp.msg 201 "User created successfully",
         { db with users := db.users ++ [new_user] })
      else
        (Resp.unhandled "NameError: name generate_password_hash is not defined", db)

/-- The JSON body `update_user` reads. -/
structure UpdateUserBody where
  username : Option String
  email : Option String
  is_admin : Option Bool
deriving DecidableEq, Repr

/-- `update_user` (`admins.py` lines 144-162).  A missing JSON body
makes `data.get` raise on `None` (no `try` here). -/
def update_user (db : DB) (caller uid : Nat)
    (body : Option UpdateUserBody) : Resp × DB :=
  if !(is_admin db caller) then (Resp.msg 403 "Admin access required", db)
  else
    match userGet db uid with
    | none => (Resp.msg 404 "User not found", db)
    | some user =>
      match body with
      | none => (Resp.unhandled "AttributeError: NoneType has no attribute get", db)
      | some data =>
        let u2 : User :=
          { user with username := data.username.getD user.username
                      email := data.email.getD user.email
                      is_admin := data.is_admin.getD user.is_admin }
        (Resp.msg 200 "User updated successfully", replaceUser db u2)

/-- `delete_user` (`admins.py` lines 167-181). -/
def delete_user (db : DB) (caller uid : Nat) : Resp × DB :=
  if !(is_admin db caller) then (Resp.msg 403 "Admin access required", db)
  else
    match userGet db uid with
    | none => (Resp.msg 404 "User not found", db)
    | some user =>
      (Resp.msg 200 "User deleted successfully",
       { db with users := db.users.filter (fun u => u.id != user.id) })

/-- `get_user` (`admins.py` lines 186-205). -/
def get_user (db : DB) (caller uid : Nat) : Resp :=
  if !(is_admin db caller) then Resp.msg 403 "Admin access required"
  else
    match userGet db uid with
    | none => Resp.msg 404 "User not found"
    | some u => Resp.oneUser 200 (userView u)

/-- `get_user_activity` (`admins.py` lines 210-229): base-class `Post`
query, so all four variants appear, base fields only. -/
def get_user_activity (db : DB) (caller uid : Nat) : Resp :=
  if !(is_admin db caller) then Resp.msg 403 "Admin access required"
  else
    match userGet db uid with
    | none => Resp.msg 404 "User not found"
    | some user =>
      Resp.activity 200
        ((db.posts.filter (fun p => p.user_id == user.id)).map
          (fun p => { id := p.id, description := p.description
                      date_posted := p.date_posted }))
        ((db.comments.filter (fun c => c.user_id == user.id)).map
          (fun c => { id := c.id, content := c.content
                      date_posted := c.date_posted }))

/-! ## Spec-side predicates and concrete test data -/

/-- A LIKE pattern fragment free of the SQL wildcards `%` and `_`. -/
def noWild (l : List Char) : Bool := l.all (fun c => !(c == '%' || c == '_'))

/-- The spec's wording for `search`: "contains the keyword as a
case-insensitive substring".  Stated from the spec, to be compared with
the `ilike`-based behaviour of `search_posts`. -/
def containsCI (s kw : String) : Bool :=
  decide (lowerList kw <:+: lowerList s)

/-- A regular (non-admin) account. -/
def aliceU : User :=
  { id := 1, username := "alice", email := "alice@example.com"
    password_hash := "h1", is_admin := false, created_at := 0 }

/-- An administrator account. -/
def adminU : User :=
  { id := 2, username := "root", email := "admin@example.com"
    password_hash := "h2", is_admin := true, created_at := 0 }

/-- A Found post owned by alice. -/
def foundP : Post :=
  { id := 1, description := "Old description", location := "Old location"
    contact_info := "555-0000", date_posted := 10, post_type := PostType.found
    user_id := 1, image := none, vehicle_details := none }

/-- A Lost post owned by alice. -/
def lostP : Post :=
  { id := 2, description := "Red wallet", location := "Main St"
    contact_info := "555-1234", date_posted := 11, post_type := PostType.lost
    user_id := 1, image := none, vehicle_details := none }

/-- The concrete database state used by the witnesses and
counterexamples below. -/
def exDB : DB := { users := [aliceU, adminU], posts := [foundP, lostP], comments := [] }

/-- An update form that supplies only `location`. -/
def locOnlyForm : PostForm :=
  { description := none, location := some "New location"
    contact_info := none, vehicle_details := none }

/-- An update form that supplies all three required fields. -/
def fullForm : PostForm :=
  { description := some "New description", location := some "New location"
    contact_info := some "555-9999", vehicle_details := none }

/-- A form with every field absent. -/
def emptyForm : PostForm :=
  { description := none, location := none, contact_info := none
    vehicle_details := none }

/-- A well-formed createUser body with an email not in `exDB`. -/
def freshUserBody : CreateUserBody :=
  { email := some "new@example.com", password := some "hunter2"
    username := some "newbie", is_admin := none }

/-- A createUser body reusing alice's registered email. -/
def dupUserBody : CreateUserBody :=
  { email := some "alice@example.com", password := some "hunter2"
    username := none, is_admin := none }

/-! ## Lemmas about SQL LIKE matching -/

theorem likeMatch_percent (ps m : List Char) :
    likeMatch ('%' :: ps) m = (suffixes m).any (fun m2 => likeMatch ps m2) := by
  simp [likeMatch]

theorem likeMatch_lit_nil (a : Char) (ps : List Char) (h1 : ¬ a = '%') :
    likeMatch (a :: ps) [] = false := by
  simp [likeMatch, h1]

theorem likeMatch_lit_cons (a : Char) (ps : List Char) (c : Char) (m : List Char)
    (h1 : ¬ a = '%') (h2 : ¬ a = '_') :
    likeMatch (a :: ps) (c :: m) = ((a == c) && likeMatch ps m) := by
  simp [likeMatch, h1, h2]

theorem suffixes_mem (m x : List Char) : x ∈ suffixes m ↔ x <:+ m := by
  induction m with
  | nil => simp [suffixes]
  | cons c cs ih => simp [suffixes, ih, List.suffix_cons_iff]

/-- A wildcard-free pattern followed by a single `%` matches exactly the
strings it is a prefix of. -/
theorem likeMatch_lit :
    ∀ kw : List Char, noWild kw = true →
      ∀ m : List Char, (likeMatch (kw ++ ['%']) m = true ↔ kw <+: m) := by
  intro kw
  induction kw with
  | nil =>
    intro _ m
    constructor
    · intro _
      exact ⟨m, rfl⟩
    · intro _
      rw [List.nil_append, likeMatch_percent, List.any_eq_true]
      exact ⟨[], (suffixes_mem m []).mpr List.nil_suffix, rfl⟩
  | cons a kw ih =>
    intro h m
    obtain ⟨⟨ha1, ha2⟩, hkw⟩ :
        (¬a = '%' ∧ ¬a = '_') ∧ ∀ x ∈ kw, ¬x = '%' ∧ ¬x = '_' := by
      simpa [noWild, not_or] using h
    have hkw2 : noWild kw = true := by simpa [noWild, not_or] using hkw
    cases m with
    | nil =>
      rw [List.cons_append, likeMatch_lit_nil a _ ha1]
      simp
    | cons c m2 =>
      rw [List.cons_append, likeMatch_lit_cons a _ c m2 ha1 ha2,
        List.cons_prefix_cons, Bool.and_eq_true, beq_iff_eq]
      exact and_congr Iff.rfl (ih hkw2 m2)

/-- A wildcard-free keyword wrapped in `%` on both sides matches exactly
the strings it occurs in. -/
theorem likeMatch_wrap (kw : List Char) (h : noWild kw = true) (m : List Char) :
    likeMatch ('%' :: (kw ++ ['%'])) m = true ↔ kw <:+: m := by
  rw [ List.infix_iff_prefix_suffix, likeMatch_percent, List.any_eq_true]
  constructor
  · rintro ⟨t, hmem, hlit⟩
    exact ⟨t, (likeMatch_lit kw h t).mp hlit, (suffixes_mem m t).mp hmem⟩
  · rintro ⟨t, hpre, hsuf⟩
    exact ⟨t, (suffixes_mem m t).mpr hsuf, (likeMatch_lit kw h t).mpr hpre⟩

theorem lowerList_wrap (kw : String) :
    lowerList ("%" ++ kw ++ "%") = '%' :: (lowerList kw ++ ['%']) := by
  show (("%" ++ kw ++ "%").data.map Char.toLower) = _
  rw [String.data_append, String.data_append]
  show (('%' :: []) ++ kw.data ++ ('%' :: [])).map Char.toLower = _
  simp [lowerList]

/-- For a wildcard-free keyword, the `ilike '%kw%'` filter coincides with
the spec's case-insensitive-substring predicate. -/
theorem ilike_wrap (s kw : String) (h : noWild (lowerList kw) = true) :
    ilike s ("%" ++ kw ++ "%") = containsCI s kw := by
  rw [Bool.eq_iff_iff]
  unfold ilike containsCI
  rw [lowerList_wrap, decide_eq_true_eq]
  exact likeMatch_wrap (lowerList kw) h (lowerList s)

/-! ## Helper lemmas about the post handlers -/

theorem variantGet_facts {pt : PostType} {db : DB} {pid : Nat} {p : Post}
    (h : variantGet pt db pid = some p) :
    p.id = pid ∧ p.post_type = pt ∧ p ∈ db.posts := by
  unfold variantGet postGetAny at h
  cases hf : db.posts.find? (fun q => q.id == pid) with
  | none => simp [hf] at h
  | some q =>
    simp only [hf] at h
    by_cases ht : q.post_type == pt
    · rw [if_pos ht] at h
      cases h
      have hid := List.find?_some hf
      have hmem := List.mem_of_find?_eq_some hf
      exact ⟨by simpa using hid, by simpa using ht, hmem⟩
    · rw [if_neg ht] at h
      cases h

theorem variantGet_wrong_type {db : DB} {pid : Nat} {p : Post} (pt : PostType)
    (h : postGetAny db pid = some p) (hne : p.post_type ≠ pt) :
    variantGet pt db pid = none := by
  unfold variantGet
  rw [h]
  simp [hne]

theorem get_post_none {pt : PostType} {db : DB} {pid : Nat}
    (h : variantGet pt db pid = none) :
    get_post pt db pid = Resp.msg 404 "Post not found" := by
  simp [get_post, h]

theorem update_post_none {pt : PostType} {db : DB} {pid uid : Nat}
    {data : PostForm} {img : Option String} (h : variantGet pt db pid = none) :
    update_post pt db pid uid data img = (Resp.msg 404 "Post not found", db) := by
  simp [update_post, h]

theorem delete_post_none {pt : PostType} {db : DB} {pid uid : Nat}
    (h : variantGet pt db pid = none) :
    delete_post pt db pid uid = (Resp.msg 404 "Post not found", db) := by
  simp [delete_post, h]

theorem get_comments_none {pt : PostType} {db : DB} {pid : Nat}
    (h : variantGet pt db pid = none) :
    get_comments pt db pid = Resp.msg 404 "Post not found" := by
  simp [get_comments, h]

theorem add_comment_none {pt : PostType} {db : DB} {pid uid now : Nat}
    {content : Option String} (hc : isBlank content = false)
    (h : variantGet pt db pid = none) :
    add_comment pt db pid uid content now = (Resp.msg 404 "Post not found", db) := by
  simp [add_comment, hc, h]

theorem update_post_forbidden {pt : PostType} {db : DB} {pid uid : Nat}
    {data : PostForm} {img : Option String} {p : Post}
    (h : variantGet pt db pid = some p) (hne : p.user_id ≠ uid) :
    update_post pt db pid uid data img =
      (Resp.msg 403 "Unauthorized to update this post", db) := by
  simp [update_post, h, hne]

theorem delete_post_forbidden {pt : PostType} {db : DB} {pid uid : Nat} {p : Post}
    (h : variantGet pt db pid = some p) (hne : p.user_id ≠ uid) :
    delete_post pt db pid uid =
      (Resp.msg 403 "Unauthorized to delete this post", db) := by
  simp [delete_post, h, hne]

/-! ## Claim theorems -/

/-- C2: for every reset token that is expired, has a tampered signature,
or otherwise fails to decode, `verify_reset_token` returns no user and
`reset_password` answers 400 "Invalid or expired token"; the response is
identical across all failure causes (and any body), so callers cannot
tell which verification failure occurred. -/
theorem reset_token_failure_uniform (db : DB) (t t2 : ResetToken)
    (body body2 : Option (Option String))
    (h : jwtDecodeReset t = none) (h2 : jwtDecodeReset t2 = none) :
    verify_reset_token db t = none ∧
    reset_password db t body = (Resp.msg 400 "Invalid or expired token", db) ∧
    reset_password db t body = reset_password db t2 body2 := by
  have hv : verify_reset_token db t = none := by simp [verify_reset_token, h]
  have hv2 : verify_reset_token db t2 = none := by simp [verify_reset_token, h2]
  have hr : reset_password db t body = (Resp.msg 400 "Invalid or expired token", db) := by
    simp [reset_password, hv]
  have hr2 : reset_password db t2 body2 = (Resp.msg 400 "Invalid or expired token", db) := by
    simp [reset_password, hv2]
  exact ⟨hv, hr, by rw [hr, hr2]⟩

theorem reset_token_failure_uniform_witness :
    verify_reset_token exDB (ResetToken.expired 1) = none ∧
    reset_password exDB (ResetToken.expired 1) (some (some "newpw")) =
      (Resp.msg 400 "Invalid or expired token", exDB) ∧
    reset_password exDB (ResetToken.expired 1) (some (some "newpw")) =
      reset_password exDB ResetToken.badSignature none :=
  reset_token_failure_uniform exDB (ResetToken.expired 1) ResetToken.badSignature
    (some (some "newpw")) none rfl rfl

/-- C3: an admin calling `create_user` with a fresh email and a password
does not get a created account: `admins.py` line 134 evaluates
`generate_password_hash`, a name its imports never bind, so the request
dies with an unhandled `NameError` (HTTP 500) and the database is
unchanged.  The duplicate-email rejection (which runs before that line)
does behave as specified. -/
theorem admin_create_user_name_error :
    admins_module_names.contains "generate_password_hash" = false ∧
    create_user exDB 2 (some freshUserBody) 0 =
      (Resp.unhandled "NameError: name generate_password_hash is not defined", exDB) ∧
    create_user exDB 2 (some dupUserBody) 0 =
      (Resp.msg 400 "Email already registered", exDB) ∧
    is_admin exDB 2 = true := by
  refine ⟨?_, ?_, ?_, ?_⟩ <;> decide

/-- C5: for every post variant, update and delete answer 404 when no
post of that variant has the id, and 403 — with the database unchanged —
when the post exists but the requester is not its owner; the requester's
admin status plays no role (the statement holds for every requester id,
including administrators). -/
theorem post_mutation_not_found_and_forbidden
    (pt : PostType) (db : DB) (pid uid : Nat) (data : PostForm) (img : Option String) :
    (variantGet pt db pid = none →
      update_post pt db pid uid data img = (Resp.msg 404 "Post not found", db) ∧
      delete_post pt db pid uid = (Resp.msg 404 "Post not found", db)) ∧
    (∀ p : Post, variantGet pt db pid = some p → p.user_id ≠ uid →
      update_post pt db pid uid data img =
        (Resp.msg 403 "Unauthorized to update this post", db) ∧
      delete_post pt db pid uid =
        (Resp.msg 403 "Unauthorized to delete this post", db)) := by
  constructor
  · intro h
    exact ⟨update_post_none h, delete_post_none h⟩
  · intro p h hne
    exact ⟨update_post_forbidden h hne, delete_post_forbidden h hne⟩

theorem post_mutation_not_found_and_forbidden_witness :
    (update_post PostType.found exDB 99 2 emptyForm none =
       (Resp.msg 404 "Post not found", exDB) ∧
     delete_post PostType.found exDB 99 2 = (Resp.msg 404 "Post not found", exDB)) ∧
    (update_post PostType.found exDB 1 2 fullForm none =
       (Resp.msg 403 "Unauthorized to update this post", exDB) ∧
     delete_post PostType.found exDB 1 2 =
       (Resp.msg 403 "Unauthorized to delete this post", exDB)) ∧
    is_admin exDB 2 = true := by
  refine ⟨?_, ?_, by decide⟩
  · exact (post_mutation_not_found_and_forbidden PostType.found exDB 99 2 emptyForm none).1
      (by decide)
  · exact (post_mutation_not_found_and_forbidden PostType.found exDB 1 2 fullForm none).2
      foundP (by decide) (by decide)

/-- C6: whenever the caller's `is_admin` flag is not affirmatively set
(flag false or caller row absent, both collapsed by `is_admin` into
`false`), every `/api/admin/*` handler answers 403 "Admin access
required" with the database unchanged, regardless of the payload. -/
theorem admin_routes_fail_closed (db : DB) (caller uid now : Nat)
    (cb : Option CreateUserBody) (ub : Option UpdateUserBody)
    (h : is_admin db caller = false) :
    admin_analytics db caller = Resp.msg 403 "Admin access required" ∧
    get_all_users db caller = Resp.msg 403 "Admin access required" ∧
    create_user db caller cb now = (Resp.msg 403 "Admin access required", db) ∧
    update_user db caller uid ub = (Resp.msg 403 "Admin access required", db) ∧
    delete_user db caller uid = (Resp.msg 403 "Admin access required", db) ∧
    get_user db caller uid = Resp.msg 403 "Admin access required" ∧
    get_user_activity db caller uid = Resp.msg 403 "Admin access required" := by
  refine ⟨?_, ?_, ?_, ?_, ?_, ?_, ?_⟩ <;>
    simp [admin_analytics, get_all_users, create_user, update_user, delete_user,
      get_user, get_user_activity, h]

theorem admin_routes_fail_closed_witness :
    (is_admin exDB 1 = false ∧
     admin_analytics exDB 1 = Resp.msg 403 "Admin access required" ∧
     create_user exDB 1 (some freshUserBody) 0 =
       (Resp.msg 403 "Admin access required", exDB)) ∧
    (userGet exDB 99 = none ∧
     delete_user exDB 99 1 = (Resp.msg 403 "Admin access required", exDB)) := by
  have h1 := admin_routes_fail_closed exDB 1 1 0 (some freshUserBody) none (by decide)
  have h2 := admin_routes_fail_closed exDB 99 1 0 none none (by decide)
  exact ⟨⟨by decide, h1.1, h1.2.2.1⟩, by decide, h2.2.2.2.2.1⟩

/-- C9: when the post with a given id exists but belongs to a different
variant than the addressed endpoint, `getById`, `update`, `delete`,
`addComment` (with non-empty content) and `listComments` of that variant
all answer 404 with the database unchanged; and a variant lookup can
only ever return a post whose discriminator matches the variant. -/
theorem variant_scoping (pt : PostType) (db : DB) (pid uid now : Nat)
    (data : PostForm) (img : Option String) (content : Option String) (p : Post)
    (hget : postGetAny db pid = some p) (hne : p.post_type ≠ pt) :
    get_post pt db pid = Resp.msg 404 "Post not found" ∧
    update_post pt db pid uid data img = (Resp.msg 404 "Post not found", db) ∧
    delete_post pt db pid uid = (Resp.msg 404 "Post not found", db) ∧
    (isBlank content = false →
      add_comment pt db pid uid content now = (Resp.msg 404 "Post not found", db)) ∧
    get_comments pt db pid = Resp.msg 404 "Post not found" ∧
    (∀ q : Post, variantGet pt db pid = some q → q.post_type = pt) := by
  have hnone := variantGet_wrong_type pt hget hne
  refine ⟨get_post_none hnone, update_post_none hnone, delete_post_none hnone,
    fun hc => add_comment_none hc hnone, get_comments_none hnone, ?_⟩
  intro q hq
  exact (variantGet_facts hq).2.1

theorem variant_scoping_witness :
    get_post PostType.found exDB 2 = Resp.msg 404 "Post not found" ∧
    update_post PostType.found exDB 2 1 fullForm none =
      (Resp.msg 404 "Post not found", exDB) ∧
    delete_post PostType.found exDB 2 1 = (Resp.msg 404 "Post not found", exDB) ∧
    add_comment PostType.found exDB 2 1 (some "hello") 5 =
      (Resp.msg 404 "Post not found", exDB) ∧
    get_comments PostType.found exDB 2 = Resp.msg 404 "Post not found" := by
  have h := variant_scoping PostType.found exDB 2 1 5 fullForm none (some "hello")
    lostP (by decide) (by decide)
  exact ⟨h.1, h.2.1, h.2.2.1, h.2.2.2.1 (by decide), h.2.2.2.2.1⟩

/-- C10: for every request body that does contain an email, the
password-reset request endpoint answers the same 200 message whether or
not a user with that email is registered, and leaves the database
unchanged; only the list of reset mails sent (the third component)
differs between the two runs. -/
theorem password_reset_request_uniform_response (db db2 : DB) (email : String) :
    (request_password_reset db (some email)).1 =
      Resp.msg 200 "If your email exists, you will receive a password reset email shortly." ∧
    (request_password_reset db (some email)).2.1 = db ∧
    (request_password_reset db (some email)).1 =
      (request_password_reset db2 (some email)).1 := by
  have key : ∀ d : DB,
      (request_password_reset d (some email)).1 =
        Resp.msg 200 "If your email exists, you will receive a password reset email shortly." ∧
      (request_password_reset d (some email)).2.1 = d := by
    intro d
    unfold request_password_reset
    cases hf : d.users.find? (fun u => u.email == email) <;> simp [hf]
  exact ⟨(key db).1, (key db).2, by rw [(key db).1, (key db2).1]⟩

/-- C1 counterexample: an owner's update that supplies only `location`
does not succeed — `update_post` re-runs `validate_post_data` on the
submitted form and answers 400 listing the two unsupplied fields, with
the database (hence the post) unchanged. -/
theorem update_requires_all_fields_cex :
    variantGet PostType.found exDB 1 = some foundP ∧
    foundP.user_id = 1 ∧
    update_post PostType.found exDB 1 1 locOnlyForm none =
      (Resp.errors 400 ["Description is required.", "Contact information is required."],
       exDB) ∧
    (update_post PostType.found exDB 1 1 locOnlyForm none).1 ≠
      Resp.msg 200 "Found post updated successfully" := by
  refine ⟨?_, ?_, ?_, ?_⟩ <;> decide

/-- C1 amended: an owner's update succeeds only when description,
location and contact_info are all supplied non-empty; it then persists
those three values, while `image` and (for stolen posts)
`vehicle_details` are independently optional and keep their prior values
when unsupplied, and the post's id, owner, type, date and all other
posts are unchanged. -/
theorem update_post_owner_full_form (pt : PostType) (db : DB) (pid uid : Nat)
    (data : PostForm) (img : Option String) (post : Post) (d l c : String)
    (hget : variantGet pt db pid = some post) (hown : post.user_id = uid)
    (hd : data.description = some d) (hd2 : d ≠ "")
    (hl : data.location = some l) (hl2 : l ≠ "")
    (hc : data.contact_info = some c) (hc2 : c ≠ "") :
    ∃ post2 : Post,
      update_post pt db pid uid data img =
        (Resp.msg 200 (pt.label ++ " post updated successfully"), replacePost db post2) ∧
      post2.description = d ∧ post2.location = l ∧ post2.contact_info = c ∧
      post2.image = (match img with | some f => some f | none => post.image) ∧
      post2.vehicle_details =
        (if pt == PostType.stolen then
           match data.vehicle_details with
           | some v => some v
           | none => post.vehicle_details
         else post.vehicle_details) ∧
      post2.id = post.id ∧ post2.user_id = post.user_id ∧
      post2.post_type = post.post_type ∧ post2.date_posted = post.date_posted ∧
      ∀ q ∈ db.posts, q.id ≠ post.id → q ∈ (replacePost db post2).posts := by
  have hbd : isBlank data.description = false := by
    rw [hd]; simp [isBlank, hd2]
  have hbl : isBlank data.location = false := by
    rw [hl]; simp [isBlank, hl2]
  have hbc : isBlank data.contact_info = false := by
    rw [hc]; simp [isBlank, hc2]
  have herr : validate_post_data data = [] := by
    simp [validate_post_data, hbd, hbl, hbc]
  refine ⟨{ post with
      description := d, location := l, contact_info := c
      vehicle_details :=
        if pt == PostType.stolen then
          match data.vehicle_details with
          | some v => some v
          | none => post.vehicle_details
        else post.vehicle_details
      image := match img with | some f => some f | none => post.image },
    ?_, rfl, rfl, rfl, rfl, rfl, rfl, rfl, rfl, rfl, ?_⟩
  · simp only [update_post, hget]
    simp [hown, herr, hd, hl, hc]
  · intro q hq hqne
    unfold replacePost
    refine List.mem_map.mpr ⟨q, hq, ?_⟩
    simp [hqne]

theorem update_post_owner_full_form_witness :
    (update_post PostType.found exDB 1 1 fullForm none).1 =
      Resp.msg 200 "Found post updated successfully" := by
  obtain ⟨post2, h1, -⟩ :=
    update_post_owner_full_form PostType.found exDB 1 1 fullForm none foundP
      "New description" "New location" "555-9999"
      (by decide) (by decide) rfl (by decide) rfl (by decide) rfl (by decide)
  rw [h1]
  rfl

/-- C4: for every post variant, `create` with any (non-trivial) subset
of {description, location, contact_info} blank answers 400 with an
errors list that contains the message for a field exactly when that
field is blank — every missing field is named, no present field is —
and no post is created (the database is returned unchanged). -/
theorem create_post_names_every_missing_field (pt : PostType) (db : DB)
    (uid now : Nat) (data : PostForm) (img : Option String)
    (h : isBlank data.description = true ∨ isBlank data.location = true ∨
         isBlank data.contact_info = true) :
    ∃ errs : List String,
      create_post pt db uid data img now = (Resp.errors 400 errs, db) ∧
      ("Description is required." ∈ errs ↔ isBlank data.description = true) ∧
      ("Location is required." ∈ errs ↔ isBlank data.location = true) ∧
      ("Contact information is required." ∈ errs ↔ isBlank data.contact_info = true) := by
  have hne : validate_post_data data ≠ [] := by
    unfold validate_post_data
    rcases h with h | h | h <;> simp [h]
  refine ⟨validate_post_data data, ?_, ?_, ?_, ?_⟩
  · simp [create_post, hne]
  all_goals
    unfold validate_post_data
    cases hd : isBlank data.description <;> cases hl : isBlank data.location <;>
      cases hc : isBlank data.contact_info <;> simp

theorem create_post_names_every_missing_field_witness :
    ∃ errs : List String,
      create_post PostType.lost exDB 1 locOnlyForm none 5 = (Resp.errors 400 errs, exDB) ∧
      ("Description is required." ∈ errs ↔ isBlank locOnlyForm.description = true) ∧
      ("Location is required." ∈ errs ↔ isBlank locOnlyForm.location = true) ∧
      ("Contact information is required." ∈ errs ↔ isBlank locOnlyForm.contact_info = true) :=
  create_post_names_every_missing_field PostType.lost exDB 1 5 locOnlyForm none
    (Or.inl (by decide))

theorem viewComments_total (db : DB) :
    ∀ xs : List Comment, (∀ c ∈ xs, (userGet db c.user_id).isSome = true) →
      ∃ vs, viewComments db xs = some vs := by
  intro xs
  induction xs with
  | nil => intro _; exact ⟨[], rfl⟩
  | cons c cs ih =>
    intro h
    obtain ⟨u, hu⟩ : ∃ u, userGet db c.user_id = some u := by
      have hs := h c (by simp)
      cases hv : userGet db c.user_id with
      | none => rw [hv] at hs; cases hs
      | some u => exact ⟨u, rfl⟩
    obtain ⟨vs, hvs⟩ := ih (fun x hx => h x (by simp [hx]))
    exact ⟨{ id := c.id, content := c.content, date_posted := c.date_posted
             username := u.username } :: vs,
           by simp [viewComments, commentView, hu, hvs]⟩

theorem viewComments_mem (db : DB) :
    ∀ (xs : List Comment) (vs : List CommentView), viewComments db xs = some vs →
      ∀ c ∈ xs, ∀ u : User, userGet db c.user_id = some u →
        ({ id := c.id, content := c.content, date_posted := c.date_posted
           username := u.username } : CommentView) ∈ vs := by
  intro xs
  induction xs with
  | nil =>
    intro vs _ c hc
    cases hc
  | cons c0 cs ih =>
    intro vs hvs c hc u hu
    simp only [viewComments] at hvs
    cases hcv : commentView db c0 with
    | none => rw [hcv] at hvs; cases hvs
    | some v =>
      cases hrest : viewComments db cs with
      | none => rw [hcv, hrest] at hvs; cases hvs
      | some vs2 =>
        rw [hcv, hrest] at hvs
        have hveq : v :: vs2 = vs := by
          cases hvs
          rfl
        rcases List.mem_cons.mp hc with rfl | hc2
        · have : v = { id := c.id, content := c.content, date_posted := c.date_posted
                       username := u.username } := by
            unfold commentView at hcv
            rw [hu] at hcv
            cases hcv
            rfl
          rw [← hveq, this]
          exact List.mem_cons_self _ _
        · rw [← hveq]
          exact List.mem_cons_of_mem _ (ih vs2 hrest c hc2 u hu)

/-- C7: `add_comment` with blank content answers 400 without writing;
with non-blank content and a post id that does not resolve to a post of
the variant it answers 404 without writing; on success it appends
exactly one comment carrying the given author and the post's id, and a
subsequent `get_comments` for that id answers 200 with a list containing
that comment enriched with the author's username. -/
theorem add_comment_spec (pt : PostType) (db : DB) (pid uid now : Nat)
    (content : Option String) :
    (isBlank content = true →
      add_comment pt db pid uid content now =
        (Resp.msg 400 "Comment content is required", db)) ∧
    (isBlank content = false → variantGet pt db pid = none →
      add_comment pt db pid uid content now = (Resp.msg 404 "Post not found", db)) ∧
    (∀ (s : String) (post : Post) (user : User),
      content = some s → s ≠ "" →
      variantGet pt db pid = some post → userGet db uid = some user →
      (∀ c ∈ db.comments, (userGet db c.user_id).isSome = true) →
      ∃ db2 : DB,
        add_comment pt db pid uid content now =
          (Resp.msg 201 "Comment added successfully", db2) ∧
        db2.users = db.users ∧ db2.posts = db.posts ∧
        db2.comments = db.comments ++
          [{ id := nextCommentId db, content := s, date_posted := now
             user_id := user.id, post_id := post.id }] ∧
        ∃ vs : List CommentView,
          get_comments pt db2 pid = Resp.commentList 200 vs ∧
          ({ id := nextCommentId db, content := s, date_posted := now
             username := user.username } : CommentView) ∈ vs) := by
  refine ⟨?_, ?_, ?_⟩
  · intro hb
    simp [add_comment, hb]
  · intro hb hget
    exact add_comment_none hb hget
  · intro s post user hs hs2 hget huser hwf
    have hblank : isBlank content = false := by
      rw [hs]; simp [isBlank, hs2]
    have hpid : post.id = pid := (variantGet_facts hget).1
    have huid : user.id = uid := by
      simpa using List.find?_some huser
    refine ⟨{ db with comments := db.comments ++
        [{ id := nextCommentId db, content := s, date_posted := now
           user_id := user.id, post_id := post.id }] }, ?_, rfl, rfl, rfl, ?_⟩
    · simp [add_comment, hs, isBlank, hs2, hget, huser]
    · -- the state after the insert
      set newc : Comment :=
        { id := nextCommentId db, content := s, date_posted := now
          user_id := user.id, post_id := post.id } with hnewc
      set db2 : DB := { db with comments := db.comments ++ [newc] } with hdb2
      have hget2 : variantGet pt db2 pid = some post := hget
      have hfilter : db2.comments.filter (fun c => c.post_id == pid) =
          db.comments.filter (fun c => c.post_id == pid) ++ [newc] := by
        show (db.comments ++ [newc]).filter (fun c => c.post_id == pid) = _
        rw [List.filter_append]
        simp [hnewc, hpid]
      have huserGet2 : ∀ x : Nat, userGet db2 x = userGet db x := fun _ => rfl
      have hwf2 : ∀ c ∈ db2.comments.filter (fun c => c.post_id == pid),
          (userGet db2 c.user_id).isSome = true := by
        intro c hcmem
        rw [hfilter] at hcmem
        rcases List.mem_append.mp hcmem with hold | hnew
        · exact hwf c (List.mem_of_mem_filter hold)
        · have : c = newc := by simpa using hnew
          rw [this, huserGet2]
          simp [hnewc, huid, huser]
      obtain ⟨vs, hvs⟩ :=
        viewComments_total db2 (db2.comments.filter (fun c => c.post_id == pid)) hwf2
      refine ⟨vs, ?_, ?_⟩
      · simp only [get_comments, hget2, hvs]
      · have hmem : newc ∈ db2.comments.filter (fun c => c.post_id == pid) := by
          rw [hfilter]
          exact List.mem_append.mpr (Or.inr (List.mem_cons_self _ _))
        have hu2 : userGet db2 newc.user_id = some user := by
          rw [huserGet2]
          show userGet db user.id = some user
          rw [huid]
          exact huser
        have := viewComments_mem db2 _ vs hvs newc hmem user hu2
        simpa [hnewc] using this

theorem add_comment_spec_witness :
    add_comment PostType.found exDB 1 1 (some "") 7 =
      (Resp.msg 400 "Comment content is required", exDB) ∧
    add_comment PostType.found exDB 99 1 (some "hi") 7 =
      (Resp.msg 404 "Post not found", exDB) ∧
    ∃ db2 : DB,
      add_comment PostType.found exDB 1 1 (some "Nice find") 7 =
        (Resp.msg 201 "Comment added successfully", db2) ∧
      ∃ vs : List CommentView,
        get_comments PostType.found db2 1 = Resp.commentList 200 vs ∧
        ({ id := 1, content := "Nice find", date_posted := 7
           username := "alice" } : CommentView) ∈ vs := by
  refine ⟨(add_comment_spec PostType.found exDB 1 1 7 (some "")).1 (by decide),
    (add_comment_spec PostType.found exDB 99 1 7 (some "hi")).2.1 (by decide) (by decide),
    ?_⟩
  obtain ⟨db2, ha, -, -, -, vs, hg, hm⟩ :=
    (add_comment_spec PostType.found exDB 1 1 7 (some "Nice find")).2.2
      "Nice find" foundP aliceU rfl (by decide) (by decide) (by decide) (by decide)
  exact ⟨db2, ha, vs, hg, hm⟩

/-- C8 counterexample: the keyword is interpolated into a SQL LIKE
pattern, so the keyword `%` makes `search_posts` return a post whose
description does not contain `%` as a substring at all — search is LIKE
matching, not literal substring matching, for keywords carrying SQL
wildcards. -/
theorem search_posts_wildcard_counterexample :
    search_posts PostType.found exDB (some "%") none =
      Resp.postList 200
        [{ id := 1, description := "Old description", location := "Old location"
           contact_info := "555-0000", vehicle_details := none, image := none
           date_posted := 10, username := "alice" }] ∧
    containsCI "Old description" "%" = false := by
  refine ⟨?_, ?_⟩ <;> decide

/-- C8 amended: for keyword and location filters free of the SQL LIKE
wildcards `%` and `_`, `search_posts` returns — in the very shape the
getAll serializer produces — exactly the posts of the variant whose
description contains the (lowercased) keyword case-insensitively and
whose location contains the (lowercased) location filter
case-insensitively; an empty or absent filter imposes no constraint and
the two filters combine by logical AND. -/
theorem search_posts_ci_substring (pt : PostType) (db : DB)
    (kwArg locArg : Option String)
    (hk : noWild (lowerList (pyLower (kwArg.getD ""))) = true)
    (hl : noWild (lowerList (pyLower (locArg.getD ""))) = true) :
    search_posts pt db kwArg locArg =
      serveList pt db (db.posts.filter (fun p =>
        p.post_type == pt
        && (pyLower (kwArg.getD "") == ""
            || containsCI p.description (pyLower (kwArg.getD "")))
        && (pyLower (locArg.getD "") == ""
            || containsCI p.location (pyLower (locArg.getD ""))))) := by
  simp only [search_posts]
  apply congrArg (serveList pt db)
  by_cases h1 : (pyLower (kwArg.getD "") == "") = true <;>
    by_cases h2 : (pyLower (locArg.getD "") == "") = true
  · rw [if_pos h1, if_pos h2]
    apply List.filter_congr
    intro x _
    simp [h1, h2]
  · rw [if_pos h1, if_neg h2, List.filter_filter]
    apply List.filter_congr
    intro x _
    rw [ilike_wrap x.location (pyLower (locArg.getD "")) hl]
    simp only [h1, Bool.true_or, Bool.and_true]
    simp [eq_false_of_ne_true h2]
    cases x.post_type == pt <;> cases containsCI x.location (pyLower (locArg.getD "")) <;> rfl
  · rw [if_neg h1, if_pos h2, List.filter_filter]
    apply List.filter_congr
    intro x _
    rw [ilike_wrap x.description (pyLower (kwArg.getD "")) hk]
    simp [eq_false_of_ne_true h1, h2]
    cases x.post_type == pt <;> cases containsCI x.description (pyLower (kwArg.getD "")) <;> rfl
  · rw [if_neg h1, if_neg h2, List.filter_filter, List.filter_filter]
    apply List.filter_congr
    intro x _
    rw [ilike_wrap x.description (pyLower (kwArg.getD "")) hk,
      ilike_wrap x.location (pyLower (locArg.getD "")) hl]
    simp [eq_false_of_ne_true h1, eq_false_of_ne_true h2]
    cases x.post_type == pt <;> cases containsCI x.description (pyLower (kwArg.getD "")) <;>
      cases containsCI x.location (pyLower (locArg.getD "")) <;> rfl

theorem search_posts_ci_substring_witness :
    search_posts PostType.found exDB (some "DESCRIPTION") none =
      serveList PostType.found exDB (exDB.posts.filter (fun p =>
        p.post_type == PostType.found
        && (pyLower "DESCRIPTION" == ""
            || containsCI p.description (pyLower "DESCRIPTION"))
        && (pyLower "" == "" || containsCI p.location (pyLower "")))) :=
  search_posts_ci_substring PostType.found exDB (some "DESCRIPTION") none
    (by decide) (by decide)

end Amber
